import Mathlib

/-
Verification development for the grib-rs GRIB2 decoder.

Shallow embedding conventions:
* Byte buffers are `List Nat` (each entry is one byte, values 0..255 of the
  Rust `&[u8]` slice); machine-integer reads produce plain `Nat`s built from
  the big-endian byte arithmetic of the source.
* Fallible Rust functions returning `Result`/`Option` become `Except GribError`
  / `Option`.  A Rust panic (e.g. `Option::unwrap` on `None`) is modelled by
  the distinguished error `GribError.unwrapNone`, kept separate from the
  ordinary `Result` errors which are `GribError.malformedSection` values; a
  non-terminating Rust loop is marked by `GribError.nonTermination` via fuel.
* Floating point values are modelled exactly as rationals (`ℚ`).
-/

namespace Grib

abbrev Bytes := List Nat

/-- Embeds `utils.rs::read_u16_from_bytes`: `None` when the slice is too
short, otherwise the big-endian `u16` at `offset`. -/
def read_u16_from_bytes (data : Bytes) (offset : Nat) : Option Nat :=
  if data.length < offset + 2 then none
  else some (data.getD offset 0 * 256 + data.getD (offset + 1) 0)

/-- Embeds `utils.rs::read_u32_from_bytes`: `None` when the slice is too
short, otherwise the big-endian `u32` at `offset`. -/
def read_u32_from_bytes (data : Bytes) (offset : Nat) : Option Nat :=
  if data.length < offset + 4 then none
  else some (data.getD offset 0 * 16777216 + data.getD (offset + 1) 0 * 65536 +
    data.getD (offset + 2) 0 * 256 + data.getD (offset + 3) 0)

/-- Embeds `utils.rs::read_u64_from_bytes`: `None` when the slice is too
short, otherwise the big-endian `u64` at `offset`. -/
def read_u64_from_bytes (data : Bytes) (offset : Nat) : Option Nat :=
  if data.length < offset + 8 then none
  else some (data.getD offset 0 * 72057594037927936 +
    data.getD (offset + 1) 0 * 281474976710656 +
    data.getD (offset + 2) 0 * 1099511627776 +
    data.getD (offset + 3) 0 * 4294967296 +
    data.getD (offset + 4) 0 * 16777216 +
    data.getD (offset + 5) 0 * 65536 +
    data.getD (offset + 6) 0 * 256 +
    data.getD (offset + 7) 0)

/-- Minimal binary digits of `n`, most significant first ([] for 0); the
fuel argument only bounds the recursion depth and any fuel `≥ n` is
enough, since a number always has no more binary digits than its value. -/
def binDigitsGo : Nat → Nat → List Nat
  | 0, _ => []
  | fuel + 1, n => if n = 0 then [] else binDigitsGo fuel (n / 2) ++ [n % 2]

/-- The digit list produced by Rust `format!` with the `:b` specifier on a
byte: minimal binary digits, most significant first, `[0]` for zero.  No
leading-zero padding is performed, exactly as in the source. -/
def formatBinaryDigits (r : Nat) : List Nat :=
  if r = 0 then [0] else binDigitsGo r r

/-- Embeds `utils.rs::bits_from_bytes`: each byte is formatted as text via
`format!` with the binary specifier and the digit characters are reparsed
(`to_digit(10)`, so a digit char maps to itself and anything else to 0);
the per-byte digit lists are concatenated. -/
def bits_from_bytes (data : Bytes) : List Nat :=
  (data.map formatBinaryDigits).flatten

/-- Error values observable from the embedded decoder.  `malformedSection`
carries the `&'static str` messages of the source's ordinary `Err` results;
`unwrapNone` models a Rust panic from `Option::unwrap` on `None` (not an
ordinary error result); `nonTermination` marks a loop that never exits. -/
inductive GribError where
  | malformedSection (msg : String)
  | unsupportedTemplate (msg : String)
  | unknownParameter
  | outOfBounds
  | noDataAtIndex (i : Nat)
  | unwrapNone
  | nonTermination
  deriving Repr, DecidableEq

/-- A zero-copy section view: start offset within the backing buffer plus the
declared byte length. -/
structure SectionView where
  offset : Nat
  length : Nat
  deriving Repr, DecidableEq

/-- Tagged section variant, mirroring `sections::section::Section`. -/
inductive GribSection where
  | indicator (s : SectionView)
  | identification (s : SectionView)
  | localUse (s : SectionView)
  | gridDefinition (s : SectionView)
  | productDefinition (s : SectionView)
  | dataRepresentation (s : SectionView)
  | bitmap (s : SectionView)
  | dataSec (s : SectionView)
  | endSec (s : SectionView)
  deriving Repr, DecidableEq

/-- Byte count consumed by a section (`Section::len` in the source): the
declared length stored in its view. -/
def GribSection.len : GribSection → Nat
  | .indicator s => s.length
  | .identification s => s.length
  | .localUse s => s.length
  | .gridDefinition s => s.length
  | .productDefinition s => s.length
  | .dataRepresentation s => s.length
  | .bitmap s => s.length
  | .dataSec s => s.length
  | .endSec s => s.length

/-- Big-endian `u32` value of the ASCII indicator magic bytes `G R I B`. -/
def gribMagic : Nat := 71 * 16777216 + 82 * 65536 + 73 * 256 + 66

/-- Big-endian `u32` value of the ASCII terminator magic `7 7 7 7`. -/
def sevensMagic : Nat := 55 * 16777216 + 55 * 65536 + 55 * 256 + 55

/-- Modelled from the spec: `Section::from_data` (the section framework,
`sections/section.rs`, is not under src/).  Reads the 4 bytes at `offset`:
the Indicator magic selects a 16-byte Indicator section (4-byte magic,
2 reserved bytes, discipline, edition, 8-byte total length), the `7777`
magic a 4-byte End section; otherwise those bytes are the declared section
length, followed by the 1-byte section-number tag.  Fails with
`MalformedSection` when the declared length exceeds the remaining bytes,
cannot even cover the 5 header bytes it counts, or when the section number
is outside the legal set 1..7. -/
def sectionFromData (data : Bytes) (offset : Nat) : Except GribError GribSection :=
  match read_u32_from_bytes data offset with
  | none => .error (.malformedSection "failed to read section length")
  | some w =>
    if w = gribMagic then
      if data.length < offset + 16 then
        .error (.malformedSection "indicator section too short")
      else
        .ok (.indicator ⟨offset, 16⟩)
    else if w = sevensMagic then
      .ok (.endSec ⟨offset, 4⟩)
    else if data.length < offset + 5 then
      .error (.malformedSection "failed to read section number")
    else if w < 5 then
      .error (.malformedSection "declared section length too small")
    else if data.length < offset + w then
      .error (.malformedSection "declared section length exceeds buffer")
    else
      match data.getD (offset + 4) 0 with
      | 1 => .ok (.identification ⟨offset, w⟩)
      | 2 => .ok (.localUse ⟨offset, w⟩)
      | 3 => .ok (.gridDefinition ⟨offset, w⟩)
      | 4 => .ok (.productDefinition ⟨offset, w⟩)
      | 5 => .ok (.dataRepresentation ⟨offset, w⟩)
      | 6 => .ok (.bitmap ⟨offset, w⟩)
      | 7 => .ok (.dataSec ⟨offset, w⟩)
      | _ => .error (.malformedSection "invalid section number")

/-- The eight local `Option` slots accumulated by `Message::parse`
(`message.rs` lines 47–54). -/
structure Slots where
  indicator_section : Option SectionView
  identification_section : Option SectionView
  grid_definition_section : Option SectionView
  product_definition_section : Option SectionView
  data_representation_section : Option SectionView
  bitmap_section : Option SectionView
  data_section : Option SectionView
  end_section : Option SectionView
  deriving Repr, DecidableEq

/-- All slots start out `None`. -/
def emptySlots : Slots :=
  ⟨none, none, none, none, none, none, none, none⟩

/-- The `match next_section` statement of `Message::parse` (`message.rs`
lines 66–76): each section variant overwrites its slot; a `LocalUse`
section is discarded (empty match arm in the source). -/
def applySection (slots : Slots) : GribSection → Slots
  | .indicator s => { slots with indicator_section := some s }
  | .identification s => { slots with identification_section := some s }
  | .localUse _ => slots
  | .gridDefinition s => { slots with grid_definition_section := some s }
  | .productDefinition s => { slots with product_definition_section := some s }
  | .dataRepresentation s => { slots with data_representation_section := some s }
  | .bitmap s => { slots with bitmap_section := some s }
  | .dataSec s => { slots with data_section := some s }
  | .endSec s => { slots with end_section := some s }

/-- The `loop` of `Message::parse` (`message.rs` lines 58–79): runs while
`current_section <= 7`, i.e. exactly 8 iterations (the fuel argument counts
the remaining iterations); each iteration parses the next section at the
cumulative offset, adds its length, stores it in its slot and increments the
counter — also for a skipped `LocalUse` section.  A section error aborts via
`?`.  Returns the slots and the total bytes consumed. -/
def assembleStep (data : Bytes) (offset : Nat) :
    Nat → Nat → Slots → Except GribError (Slots × Nat)
  | 0, currentOffset, slots => .ok (slots, currentOffset)
  | n + 1, currentOffset, slots =>
    match sectionFromData data (offset + currentOffset) with
    | .error e => .error e
    | .ok s =>
      assembleStep data offset n (currentOffset + s.len) (applySection slots s)

/-- The assembled message: one view per mandatory section (`message.rs`
lines 34–43; the Rust fields are non-optional, so a `Message` value is
always complete). -/
structure Message where
  indicator_section : SectionView
  identification_section : SectionView
  grid_definition_section : SectionView
  product_definition_section : SectionView
  data_representation_section : SectionView
  bitmap_section : SectionView
  data_section : SectionView
  end_section : SectionView
  deriving Repr, DecidableEq

/-- Models the Rust `Option::unwrap` calls of `Message::parse` (`message.rs`
lines 82–89): a populated slot yields its view, an empty slot panics —
recorded as the non-result error `GribError.unwrapNone`. -/
def unwrapSlot (o : Option SectionView) : Except GribError SectionView :=
  match o with
  | some s => .ok s
  | none => .error .unwrapNone

/-- The `Ok(Message { ... unwrap() ... })` tail of `Message::parse`
(`message.rs` lines 81–90): unwrap every slot in field order into the
`Message`; the first empty slot panics. -/
def unwrapSlots (slots : Slots) : Except GribError Message := do
  let ind ← unwrapSlot slots.indicator_section
  let ident ← unwrapSlot slots.identification_section
  let grid ← unwrapSlot slots.grid_definition_section
  let prod ← unwrapSlot slots.product_definition_section
  let rep ← unwrapSlot slots.data_representation_section
  let bm ← unwrapSlot slots.bitmap_section
  let dat ← unwrapSlot slots.data_section
  let endS ← unwrapSlot slots.end_section
  .ok ⟨ind, ident, grid, prod, rep, bm, dat, endS⟩

/-- Embeds `Message::parse` (`message.rs` lines 46–91): run the 8-iteration
section loop from `offset`, then unwrap every slot into the `Message`. -/
def parse (data : Bytes) (offset : Nat) : Except GribError Message :=
  match assembleStep data offset 8 0 emptySlots with
  | .error e => .error e
  | .ok (slots, _) => unwrapSlots slots

/-- Embeds `Message::len` (`message.rs` line 161): the indicator section's
declared total message length, the big-endian `u64` at bytes 8..16 of the
indicator section (within bounds by construction, `getD 0` is unreachable). -/
def messageLen (data : Bytes) (m : Message) : Nat :=
  (read_u64_from_bytes data (m.indicator_section.offset + 8)).getD 0

/-- The `while offset < data.len()` loop of `Message::parse_all`
(`message.rs` lines 97–104), with fuel for termination: an ordinary parse
error breaks the loop returning the messages so far (the `if let Ok` /
`else break`), the `unwrapNone` panic propagates past the `if let`, and
exhausted fuel marks the infinite loop a zero-length message causes. -/
def parseAllGo (data : Bytes) :
    Nat → Nat → List Message → Except GribError (List Message)
  | 0, _, _ => .error .nonTermination
  | fuel + 1, offset, messages =>
    if offset < data.length then
      match parse data offset with
      | .ok m => parseAllGo data fuel (offset + messageLen data m) (messages ++ [m])
      | .error .unwrapNone => .error .unwrapNone
      | .error _ => .ok messages
    else
      .ok messages

/-- Embeds `Message::parse_all` (`message.rs` lines 93–107).  The fuel
`data.length + 1` suffices for every terminating run, since each surviving
iteration strictly advances `offset`. -/
def parse_all (data : Bytes) : Except GribError (List Message) :=
  parseAllGo data (data.length + 1) 0 []

/-- The resolved parameter record `{name, abbrev, unit}` of `grib_types`
(`abbrev` is a Lean keyword, so that field is called `abbr` here). -/
structure Parameter where
  name : String
  abbr : String
  unit : String
  deriving Repr, DecidableEq

/-- The `TemperatureProduct` table of `templates/product.rs` (lines 91–137):
discriminant ↦ parameter, with abbreviation and unit from the variant
attributes, and the name from the description attribute when present,
otherwise from the variant identifier (the spec's resolution example names
number 0 "Temperature"). -/
def temperatureProduct (number : Nat) : Option Parameter :=
  match number with
  | 0 => some ⟨"Temperature", "TMP", "K"⟩
  | 1 => some ⟨"virtual temperature", "VTMP", "K"⟩
  | 2 => some ⟨"potential temperature", "POT", "K"⟩
  | 3 => some ⟨"pseudo-adiabatic potential temperature", "EPOT", "K"⟩
  | 4 => some ⟨"maximum temperature", "TMAX", "K"⟩
  | 5 => some ⟨"minimum temperature", "TMIN", "K"⟩
  | 6 => some ⟨"depoint temperature", "DPT", "K"⟩
  | 7 => some ⟨"dewpoint depression", "DEPR", "K"⟩
  | 8 => some ⟨"lapse rate", "LAPR", "Km-1"⟩
  | 12 => some ⟨"heat index", "HEATX", "K"⟩
  | 13 => some ⟨"wind chill factor", "WCF", "K"⟩
  | _ => none

/-- The `MoistureProduct` table of `templates/product.rs` (lines 139–169). -/
def moistureProduct (number : Nat) : Option Parameter :=
  match number with
  | 0 => some ⟨"specific humidity", "SPFH", "kgkg-1"⟩
  | 1 => some ⟨"relative humidity", "RH", "%"⟩
  | 2 => some ⟨"humidity mixing ratio", "MIXR", "kgkg-1"⟩
  | 3 => some ⟨"precipitable water", "PWAT", "kgm-2"⟩
  | 4 => some ⟨"Evaporation", "EVP", "kgm-2"⟩
  | 5 => some ⟨"precipitation rate", "PRATE", "kgm-2s-1"⟩
  | 8 => some ⟨"total precipitation", "APCP", "kgm-2"⟩
  | _ => none

/-- The `MomentumProduct` table of `templates/product.rs` (lines 171–210). -/
def momentumProduct (number : Nat) : Option Parameter :=
  match number with
  | 0 => some ⟨"wind direction", "WDIR", "degrees"⟩
  | 1 => some ⟨"wind speed", "WIND", "ms-1"⟩
  | 2 => some ⟨"u-component of wind speed", "UGRD", "ms-1"⟩
  | 3 => some ⟨"v-component of wind speed", "VGRD", "ms-1"⟩
  | 21 => some ⟨"Maximum wind speed", "MAXGUST", "ms-1"⟩
  | 22 => some ⟨"wind gust speed", "GUST", "ms-1"⟩
  | 23 => some ⟨"u-component of wind gust", "UGUST", "ms-1"⟩
  | 24 => some ⟨"v-component of wind gust", "VGUST", "ms-1"⟩
  | 33 => some ⟨"wind fetch", "WINDF", "m"⟩
  | _ => none

/-- The `MassProduct` table of `templates/product.rs` (lines 212–226). -/
def massProduct (number : Nat) : Option Parameter :=
  match number with
  | 0 => some ⟨"Pressure", "PRES", "pa"⟩
  | 1 => some ⟨"pressure reduced to MSL", "PRMSL", "pa"⟩
  | 2 => some ⟨"pressure tendency", "PTEND", "pas-1"⟩
  | _ => none

/-- The `WavesProduct` table of `templates/product.rs` (lines 228–423). -/
def wavesProduct (number : Nat) : Option Parameter :=
  match number with
  | 0 => some ⟨"primary wave spectra", "WVSP1", "-"⟩
  | 1 => some ⟨"secondary wave spectra", "-", "WVSP2"⟩
  | 2 => some ⟨"tertiary wave spectra", "-", "WVSP3"⟩
  | 3 => some ⟨"significant wave height of combined wind and swell waves", "HTSGW", "m"⟩
  | 4 => some ⟨"direction of wind waves", "WVDIR", "degree"⟩
  | 5 => some ⟨"significant height of wind waves", "WVHGT", "m"⟩
  | 6 => some ⟨"mean period of wind waves", "WVPER", "s"⟩
  | 7 => some ⟨"direction of swell waves", "SWDIR", "degree"⟩
  | 8 => some ⟨"significant height of swell waves", "SWELL", "m"⟩
  | 9 => some ⟨"mean period of swell waves", "SWPER", "s"⟩
  | 10 => some ⟨"primary wave direction", "DIRPW", "degree"⟩
  | 11 => some ⟨"primary wave mean period", "PERPW", "s"⟩
  | 12 => some ⟨"secondary wave direction", "DIRSW", "degree"⟩
  | 13 => some ⟨"secondary wave mean period", "PERSW", "s"⟩
  | 14 => some ⟨"direction of combined wind and swell waves", "WWSDIR", "degree"⟩
  | 15 => some ⟨"mean period of combined wind and swell waves", "MWSPER", "s"⟩
  | 16 => some ⟨"coefficient of drag with waves", "CDWW", "-"⟩
  | 17 => some ⟨"friction velocity", "FRICV", "ms-1"⟩
  | 18 => some ⟨"wave stress", "WSTR", "Nm-2"⟩
  | 19 => some ⟨"normalized wave stress", "NWSTR", "-"⟩
  | 20 => some ⟨"mean square slope of waves", "MSSW", "-"⟩
  | 21 => some ⟨"u-component of stokes drift", "USSD", "ms-1"⟩
  | 22 => some ⟨"v-component of stokes drift", "VSSD", "ms-1"⟩
  | 23 => some ⟨"period of maximumm individual wave height", "PMAXWH", "s"⟩
  | 24 => some ⟨"maximum individual wave height", "MAXWH", "m"⟩
  | 25 => some ⟨"inverse mean wave frequency", "IMWF", "s"⟩
  | 26 => some ⟨"inverse mean frequency of the wind waves", "IMFWW", "s"⟩
  | 27 => some ⟨"inverse mean frequency of the total swell", "IMFTSW", "s"⟩
  | 28 => some ⟨"mean zero crossing wave period", "MZWPER", "s"⟩
  | 29 => some ⟨"mean zero crossing period of the wind waves", "MZPWW", "s"⟩
  | 30 => some ⟨"mean zero crossing of the total swell", "MZPTSW", "s"⟩
  | 31 => some ⟨"wave directional width", "WDIRW", "-"⟩
  | 32 => some ⟨"directional width of the wind waves", "DIRWWW", "-"⟩
  | 33 => some ⟨"directional width of the total swell", "DIRWTS", "-"⟩
  | 34 => some ⟨"peak wave period", "PWPER", "s"⟩
  | 35 => some ⟨"peak period of the wind waves", "PPERWW", "s"⟩
  | 36 => some ⟨"peak period of the total swell", "PPERTS", "s"⟩
  | 37 => some ⟨"altimeter wave height", "ALTWH", "m"⟩
  | 38 => some ⟨"altimeter corrected wave height", "ALCWH", "m"⟩
  | 39 => some ⟨"altimeter range relative correction", "ALRRC", "-"⟩
  | 40 => some ⟨"10 meter neutral wind speed over waves", "MNWSOW", "ms-1"⟩
  | 41 => some ⟨"10 meter wind direction over waves", "MWDIRW", "degree"⟩
  | 42 => some ⟨"wave energy spectrum", "WESP", "m-2 s rad-1"⟩
  | 43 => some ⟨"kurtosis of the sea surface elevation due to waves", "KSSEW", "-"⟩
  | 44 => some ⟨"benjamin-feir index", "BENINX", "-"⟩
  | 45 => some ⟨"spectral peakedness factor", "SPFTR", "s-1"⟩
  | 192 => some ⟨"wave steepness", "WSTP", "porportion"⟩
  | 193 => some ⟨"wave length", "WLENG", "-"⟩
  | _ => none

/-- Modelled from the spec: parameter resolution (§4.3; the product-template
`parameter()` dispatch is not under src/).  The (discipline, category) pair
selects the matching static table from `templates/product.rs` —
Meteorological (0) categories 0..3 and Oceanographic (10) waves category 0 —
and a triple absent from every table fails with `UnknownParameter`. -/
def resolveParameter (discipline category number : Nat) : Except GribError Parameter :=
  let table : Option Parameter :=
    match discipline, category with
    | 0, 0 => temperatureProduct number
    | 0, 1 => moistureProduct number
    | 0, 2 => momentumProduct number
    | 0, 3 => massProduct number
    | 10, 0 => wavesProduct number
    | _, _ => none
  match table with
  | some p => .ok p
  | none => .error .unknownParameter

/-- Modelled from the spec: the regular latitude-longitude grid template
(§4.6; `templates/grid_definition.rs` is not under src/): start and end
corners, point counts, and the signed per-step increments (the declared
resolution with the ascending/descending scan direction folded into the
sign). -/
structure LatLonGrid where
  startLat : ℚ
  startLon : ℚ
  endLat : ℚ
  endLon : ℚ
  latStep : ℚ
  lonStep : ℚ
  latCount : Nat
  lonCount : Nat
  deriving Repr, DecidableEq

/-- Modelled from the spec: `locations()` (§4.6) — the deterministic
row-major enumeration of (lat, lon) pairs, index `k` mapping to latitude row
`k / lonCount` and longitude column `k % lonCount`, of length
`latCount * lonCount`. -/
def locations (g : LatLonGrid) : List (ℚ × ℚ) :=
  (List.range (g.latCount * g.lonCount)).map (fun k =>
    (g.startLat + (↑(k / g.lonCount) : ℚ) * g.latStep,
     g.startLon + (↑(k % g.lonCount) : ℚ) * g.lonStep))

/-- Modelled from the spec: `index_for_location` (§4.6) — round each
coordinate to the nearest grid step, verify the rounded point lies on the
grid, and return the row-major linear index; out-of-range fails with
`OutOfBounds`. -/
def index_for_location (g : LatLonGrid) (lat lon : ℚ) : Except GribError Nat :=
  if 0 ≤ round ((lat - g.startLat) / g.latStep) ∧
      round ((lat - g.startLat) / g.latStep) < (g.latCount : ℤ) ∧
      0 ≤ round ((lon - g.startLon) / g.lonStep) ∧
      round ((lon - g.startLon) / g.lonStep) < (g.lonCount : ℤ) then
    .ok ((round ((lat - g.startLat) / g.latStep)).toNat * g.lonCount +
      (round ((lon - g.startLon) / g.lonStep)).toNat)
  else
    .error .outOfBounds

/-- Modelled from the spec: the scale parameters a resolved
`DataRepresentationTemplate` supplies (§4.4): reference value R, binary
scale exponent E, decimal scale exponent D, and bit width N per value. -/
structure DataRepTemplate where
  referenceValue : ℚ
  binaryScale : ℤ
  decimalScale : ℤ
  bitWidth : Nat
  deriving Repr, DecidableEq

/-- Modelled from the spec: an MSB-first bit list read as an unsigned
integer (the bit-cursor arithmetic of §4.4). -/
def bitsToUInt (bits : List Nat) : Nat :=
  bits.foldl (fun acc b => 2 * acc + b) 0

/-- Modelled from the spec: decode one value (§4.4) — read the N bits at bit
offset `k * N` of the continuous MSB-first stream as `rawInt` and compute
`(R + rawInt * 2^E) / 10^D`. -/
def unpackValue (t : DataRepTemplate) (bits : List Nat) (k : Nat) : ℚ :=
  (t.referenceValue +
      (bitsToUInt ((bits.drop (k * t.bitWidth)).take t.bitWidth) : ℚ) *
        (2 : ℚ) ^ t.binaryScale) /
    (10 : ℚ) ^ t.decimalScale

/-- Modelled from the spec: `unpack_all` (§4.4) — decode every declared
point in order. -/
def unpack_all (t : DataRepTemplate) (bits : List Nat) (count : Nat) : List ℚ :=
  (List.range count).map (unpackValue t bits)

/-- Modelled from the spec: `unpack_range(lo, hi)` (§4.4) — decode only
positions [lo, hi), seeking directly to bit offset `lo * N`. -/
def unpack_range (t : DataRepTemplate) (bits : List Nat) (lo hi : Nat) : List ℚ :=
  (List.range (hi - lo)).map (fun k => unpackValue t bits (lo + k))

/-- Modelled from the spec: the documented missing-value sentinel inserted
at absent grid positions (§4.5, §6; its concrete value is immaterial to the
claims). -/
def missingValue : ℚ := 9999

/-- Modelled from the spec: the bitmap section contents (§4.5,
`sections/bitmap.rs` is not under src/) — whether the indicator marks a bitmap as
present, and the per-grid-point presence bits (MSB-first order, already
expanded to one entry per grid point). -/
structure BitmapSec where
  present : Bool
  bits : List Nat
  deriving Repr, DecidableEq

/-- Modelled from the spec: the expansion step of `map_data` (§4.5) — walk
the presence bits in grid order, consuming the next compact value at a set
bit and inserting the missing-value sentinel at a clear bit (or when the
compact sequence is exhausted). -/
def expandBits : List Nat → List ℚ → List ℚ
  | [], _ => []
  | b :: bs, xs =>
    if b = 1 then
      match xs with
      | [] => missingValue :: expandBits bs []
      | x :: rest => x :: expandBits bs rest
    else
      missingValue :: expandBits bs xs

/-- Modelled from the spec: `map_data` (§4.5; `sections/bitmap.rs` is not
under src/) — the identity when no bitmap is present, otherwise the
expansion of the compact sequence to one entry per grid point. -/
def map_data (bm : BitmapSec) (compact : List ℚ) : List ℚ :=
  if bm.present then expandBits bm.bits compact else compact

/-- Modelled from the spec: `data_index` (§4.5) — grid-linear index to
compact-sequence position: the identity when no bitmap is present; with a
bitmap, the count of set bits before a present position, and `none` when
the bitmap marks the position absent. -/
def data_index (bm : BitmapSec) (i : Nat) : Option Nat :=
  if bm.present then
    if bm.bits.getD i 0 = 1 then
      some ((bm.bits.take i).count 1)
    else
      none
  else
    some i

/-- The resolved per-message decoding inputs that `Message::data`,
`Message::data_locations` and `Message::data_at_location` obtain from their
sections: the grid template, the data representation template, the bitmap
section, the raw bit stream of the data section, and the declared data
point count. -/
structure DecodeView where
  grid : LatLonGrid
  rep : DataRepTemplate
  bitmap : BitmapSec
  dataBits : List Nat
  pointCount : Nat

/-- Embeds the composition of `Message::data` (`message.rs` lines 270–284):
unpack the full stream with the data representation template, then map it
through the bitmap section. -/
def dataAll (v : DecodeView) : List ℚ :=
  map_data v.bitmap (unpack_all v.rep v.dataBits v.pointCount)

/-- Embeds `Message::data_locations` (`message.rs` lines 286–293): the grid
template's location enumeration. -/
def dataLocations (v : DecodeView) : List (ℚ × ℚ) :=
  locations v.grid

/-- Embeds the composition of `Message::data_at_location` (`message.rs`
lines 295–319): coordinate → grid index via the grid template, grid index →
compact index via the bitmap section (absent positions are the
`NoDataAtIndex` error), then a one-element `unpack_range` (always a
singleton, so the source's `data[0]` cannot panic). -/
def data_at_location (v : DecodeView) (location : ℚ × ℚ) : Except GribError ℚ :=
  match index_for_location v.grid location.1 location.2 with
  | .error e => .error e
  | .ok locationIndex =>
    match data_index v.bitmap locationIndex with
    | none => .error (.noDataAtIndex locationIndex)
    | some dataIndex =>
      .ok ((unpack_range v.rep v.dataBits dataIndex (dataIndex + 1)).getD 0 0)

/-- A reference or forecast timestamp as the (year, month, day, hour,
minute, second) tuple read from the message (chrono `DateTime` stands
outside the embedding). -/
structure DateStamp where
  year : Nat
  month : Nat
  day : Nat
  hour : Nat
  minute : Nat
  second : Nat
  deriving Repr, DecidableEq

/-- Modelled from the spec: `IndicatorSection::discipline`
(`sections/indicator.rs` is not under src/) — the discipline code byte of
the indicator section (§6: after the 4-byte magic and 2 reserved bytes). -/
def indicatorDiscipline (data : Bytes) (s : SectionView) : Nat :=
  data.getD (s.offset + 6) 0

/-- Modelled from the spec: `IdentificationSection::reference_date`
(`sections/identification.rs` is not under src/) — the reference timestamp
at its fixed GRIB2 offsets within the identification section. -/
def referenceDate (data : Bytes) (s : SectionView) : DateStamp :=
  ⟨(read_u16_from_bytes data (s.offset + 12)).getD 0,
    data.getD (s.offset + 14) 0,
    data.getD (s.offset + 15) 0,
    data.getD (s.offset + 16) 0,
    data.getD (s.offset + 17) 0,
    data.getD (s.offset + 18) 0⟩

/-- Modelled from the spec: the product definition template number, the
big-endian `u16` at its fixed offset in the product definition section. -/
def productTemplateNumber (data : Bytes) (s : SectionView) : Nat :=
  (read_u16_from_bytes data (s.offset + 7)).getD 0

/-- Embeds `Message::parameter` (`message.rs` lines 173–193): only the
HorizontalAnalysisForecast product template (number 0) is supported; its
parameter is resolved from (discipline, category byte, number byte) of the
product definition section, an unknown triple being the recoverable
`UnknownParameter` error (the source's "not supported" `Err` string). -/
def messageParameter (data : Bytes) (m : Message) : Except GribError Parameter :=
  let discipline := indicatorDiscipline data m.indicator_section
  if productTemplateNumber data m.product_definition_section ≠ 0 then
    .error (.unsupportedTemplate
      "Only HorizontalAnalysisForecast templates are supported at this time")
  else
    resolveParameter discipline
      (data.getD (m.product_definition_section.offset + 9) 0)
      (data.getD (m.product_definition_section.offset + 10) 0)

/-- Modelled from the spec: `forecast_datetime` of the
HorizontalAnalysisForecast product template — the reference date shifted by
the declared forecast offset; represented as the reference stamp together
with the (time unit, amount) pair read from the product definition
section. -/
def forecastDate (data : Bytes) (m : Message) :
    Except GribError (DateStamp × Nat × Nat) :=
  if productTemplateNumber data m.product_definition_section ≠ 0 then
    .error (.unsupportedTemplate
      "Only HorizontalAnalysisForecast templates are supported at this time")
  else
    .ok (referenceDate data m.identification_section,
      data.getD (m.product_definition_section.offset + 17) 0,
      (read_u32_from_bytes data (m.product_definition_section.offset + 18)).getD 0)

/-- Modelled from the spec: a raw grid coordinate field scaled by the GRIB2
factor 10^6. -/
def microScaled (n : Nat) : ℚ := (n : ℚ) / 1000000

/-- Modelled from the spec: `GridDefinitionSection::grid_definition_template`
(`sections/grid_definition.rs` is not under src/) — only the regular
latitude-longitude template (number 0) is supported; its corners, counts
and resolutions are read from their fixed GRIB2 template 3.0 offsets. -/
def gridDefinitionTemplate (data : Bytes) (s : SectionView) :
    Except GribError LatLonGrid :=
  if (read_u16_from_bytes data (s.offset + 12)).getD 0 ≠ 0 then
    .error (.unsupportedTemplate
      "Only latitude longitude templates supported at this time")
  else
    .ok ⟨microScaled ((read_u32_from_bytes data (s.offset + 46)).getD 0),
      microScaled ((read_u32_from_bytes data (s.offset + 50)).getD 0),
      microScaled ((read_u32_from_bytes data (s.offset + 55)).getD 0),
      microScaled ((read_u32_from_bytes data (s.offset + 59)).getD 0),
      microScaled ((read_u32_from_bytes data (s.offset + 63)).getD 0),
      microScaled ((read_u32_from_bytes data (s.offset + 67)).getD 0),
      (read_u32_from_bytes data (s.offset + 30)).getD 0,
      (read_u32_from_bytes data (s.offset + 34)).getD 0⟩

/-- Modelled from the spec: the grid's declared data point count
(`data_point_count`), the big-endian `u32` at its fixed offset in the grid
definition section. -/
def dataPointCount (data : Bytes) (s : SectionView) : Nat :=
  (read_u32_from_bytes data (s.offset + 6)).getD 0

/-- Modelled from the spec: the data representation template number, the
big-endian `u16` at its fixed offset in the data representation section. -/
def dataRepresentationTemplateNumber (data : Bytes) (s : SectionView) : Nat :=
  (read_u16_from_bytes data (s.offset + 9)).getD 0

/-- The derived metadata snapshot (`message.rs` lines 20–32), with
timestamps as `DateStamp`s and coordinates as rationals. -/
structure MessageMetadata where
  discipline : Nat
  reference_date : DateStamp
  forecast_date : DateStamp × Nat × Nat
  variable_name : String
  variable_abbreviation : String
  region : (ℚ × ℚ) × (ℚ × ℚ)
  location_grid : Nat × Nat
  location_resolution : ℚ × ℚ
  units : String
  data_template_number : Nat
  data_point_count : Nat
  deriving Repr, DecidableEq

/-- Embeds `Message::metadata` (`message.rs` lines 227–268): reads the
discipline and reference date, resolves the grid template (grid shape,
resolution and extent), the parameter and the forecast date, and combines
them with the data representation template number and the declared data
point count into the read-only snapshot; any failing step's error
propagates. -/
def metadata (data : Bytes) (m : Message) : Except GribError MessageMetadata :=
  let discipline := indicatorDiscipline data m.indicator_section
  let reference_date := referenceDate data m.identification_section
  match gridDefinitionTemplate data m.grid_definition_section with
  | .error e => .error e
  | .ok g =>
    match messageParameter data m with
    | .error e => .error e
    | .ok p =>
      match forecastDate data m with
      | .error e => .error e
      | .ok fd =>
        .ok ⟨discipline, reference_date, fd, p.name, p.abbr,
          ((g.startLat, g.startLon), (g.endLat, g.endLon)),
          (g.latCount, g.lonCount), (g.latStep, g.lonStep), p.unit,
          dataRepresentationTemplateNumber data m.data_representation_section,
          dataPointCount data m.grid_definition_section⟩

/-- A 16-byte indicator section: "GRIB" magic, two reserved bytes,
discipline 0 (Meteorological), edition 2, and the 8-byte big-endian total
message length (one byte suffices for the test messages). -/
def indicatorBytes (totalLen : Nat) : Bytes :=
  [71, 82, 73, 66, 0, 0, 0, 2, 0, 0, 0, 0, 0, 0, 0, totalLen]

/-- A minimal 5-byte section with number tag `n`: declared length 5 covering
exactly its own header. -/
def minimalSec (n : Nat) : Bytes :=
  [0, 0, 0, 5, n]

/-- The 4-byte "7777" End section. -/
def endBytes : Bytes :=
  [55, 55, 55, 55]

/-- A 50-byte well-formed message without a LocalUse section: indicator,
sections 1, 3, 4, 5, 6, 7, and the End terminator. -/
def wellFormedMsg : Bytes :=
  indicatorBytes 50 ++ minimalSec 1 ++ minimalSec 3 ++ minimalSec 4 ++
    minimalSec 5 ++ minimalSec 6 ++ minimalSec 7 ++ endBytes

/-- The same message with a LocalUse section (number 2) inserted after the
identification section: 55 bytes, total length field 55. -/
def localUseMsg : Bytes :=
  indicatorBytes 55 ++ minimalSec 1 ++ minimalSec 2 ++ minimalSec 3 ++
    minimalSec 4 ++ minimalSec 5 ++ minimalSec 6 ++ minimalSec 7 ++ endBytes

/-- A 51-byte buffer whose identification section appears twice, so that the
8 parsed sections populate only 7 mandatory slots (the End slot stays
empty). -/
def dupIdentMsg : Bytes :=
  indicatorBytes 51 ++ minimalSec 1 ++ minimalSec 1 ++ minimalSec 3 ++
    minimalSec 4 ++ minimalSec 5 ++ minimalSec 6 ++ minimalSec 7

/-- Two complete 50-byte messages followed by 3 truncated trailing bytes. -/
def twoMsgPlusGarbage : Bytes :=
  wellFormedMsg ++ wellFormedMsg ++ [9, 9, 9]

/-- The message `parse` assembles from `wellFormedMsg` at offset 0. -/
def wellFormedResult : Message :=
  ⟨⟨0, 16⟩, ⟨16, 5⟩, ⟨21, 5⟩, ⟨26, 5⟩, ⟨31, 5⟩, ⟨36, 5⟩, ⟨41, 5⟩, ⟨46, 4⟩⟩

/-- The message `parse` assembles from `twoMsgPlusGarbage` at offset 50. -/
def secondMsgResult : Message :=
  ⟨⟨50, 16⟩, ⟨66, 5⟩, ⟨71, 5⟩, ⟨76, 5⟩, ⟨81, 5⟩, ⟨86, 5⟩, ⟨91, 5⟩, ⟨96, 4⟩⟩

/-- The slot state the section loop reaches on `dupIdentMsg`: the second
identification section overwrote the first and the End slot is empty. -/
def dupIdentSlots : Slots :=
  ⟨some ⟨0, 16⟩, some ⟨21, 5⟩, some ⟨26, 5⟩, some ⟨31, 5⟩, some ⟨36, 5⟩,
    some ⟨41, 5⟩, some ⟨46, 5⟩, none⟩

/-- Whether every mandatory slot is populated (the condition under which
the source's eight `unwrap()` calls all succeed). -/
def slotsComplete (s : Slots) : Bool :=
  s.indicator_section.isSome && s.identification_section.isSome &&
    s.grid_definition_section.isSome && s.product_definition_section.isSome &&
    s.data_representation_section.isSome && s.bitmap_section.isSome &&
    s.data_section.isSome && s.end_section.isSome

/-- A one-point no-bitmap decode view: unit grid at the origin, 8-bit
values with all scales neutral, data stream `0x0F` as bits. -/
def onePointView : DecodeView :=
  ⟨⟨0, 0, 0, 0, 1, 1, 1, 1⟩, ⟨0, 0, 0, 8⟩, ⟨false, []⟩,
    [0, 0, 0, 0, 1, 1, 1, 1], 1⟩

/-! Helper lemmas. -/

/-- The expansion step always emits one entry per presence bit, however many
bits are set and however long the compact sequence is. -/
theorem expandBits_length (bits : List Nat) :
    ∀ xs : List ℚ, (expandBits bits xs).length = bits.length := by
  induction bits with
  | nil => intro xs; rfl
  | cons b bs ih =>
    intro xs
    by_cases hb : b = 1
    · cases xs with
      | nil => simp [expandBits, hb, ih]
      | cons x rest => simp [expandBits, hb, ih]
    · simp [expandBits, hb, ih]

/-- A successful `sectionFromData` read its 4 header bytes inside the buffer
and consumes at least 4 bytes. -/
theorem sectionFromData_ok_bounds (data : Bytes) (offset : Nat)
    (sct : GribSection) (h : sectionFromData data offset = .ok sct) :
    offset + 4 ≤ data.length ∧ 4 ≤ sct.len := by
  rw [sectionFromData] at h
  split at h
  · exact absurd h (by simp)
  · rename_i w hr
    have hlen : offset + 4 ≤ data.length := by
      rw [read_u32_from_bytes] at hr
      by_cases hc : data.length < offset + 4
      · rw [if_pos hc] at hr; exact absurd hr (by simp)
      · omega
    refine ⟨hlen, ?_⟩
    repeat' split at h
    all_goals cases h
    all_goals simp only [GribSection.len]
    all_goals omega

/-- Every `sectionFromData` failure is an ordinary `MalformedSection`
result. -/
theorem sectionFromData_error_shape (data : Bytes) (offset : Nat)
    (e : GribError) (h : sectionFromData data offset = .error e) :
    ∃ s, e = .malformedSection s := by
  rw [sectionFromData] at h
  repeat' split at h
  all_goals cases h
  all_goals exact ⟨_, rfl⟩

/-- A buffer too short to hold the remaining section headers makes the
section loop fail with an ordinary `MalformedSection` result: each
successful section costs at least 4 bytes. -/
theorem assembleStep_short (data : Bytes) (offset : Nat) :
    ∀ (m currentOffset : Nat) (slots : Slots),
      data.length < offset + currentOffset + 4 * (m + 1) →
      ∃ s, assembleStep data offset (m + 1) currentOffset slots =
        .error (.malformedSection s) := by
  intro m
  induction m with
  | zero =>
    intro currentOffset slots h
    have hr : read_u32_from_bytes data (offset + currentOffset) = none := by
      rw [read_u32_from_bytes, if_pos (by omega)]
    refine ⟨"failed to read section length", ?_⟩
    rw [assembleStep, sectionFromData, hr]
  | succ k ih =>
    intro currentOffset slots h
    cases hsec : sectionFromData data (offset + currentOffset) with
    | error e =>
      obtain ⟨s, rfl⟩ := sectionFromData_error_shape data _ e hsec
      exact ⟨s, by rw [assembleStep, hsec]⟩
    | ok sct =>
      obtain ⟨hbound, hlen⟩ := sectionFromData_ok_bounds data _ sct hsec
      obtain ⟨s, hs⟩ := ih (currentOffset + sct.len) (applySection slots sct)
        (by omega)
      exact ⟨s, by rw [assembleStep, hsec]; exact hs⟩

/-- The loop of `parse_all` never surfaces an ordinary section error: the
`if let Ok / else break` of the source absorbs it, ending the stream; the
whole call can only succeed, propagate the missing-slot panic, or (fuel
exhausted) spin forever on a zero-length message. -/
theorem parseAllGo_shape (data : Bytes) :
    ∀ (fuel offset : Nat) (acc : List Message),
      (∃ ms, parseAllGo data fuel offset acc = .ok ms) ∨
        parseAllGo data fuel offset acc = .error .unwrapNone ∨
        parseAllGo data fuel offset acc = .error .nonTermination := by
  intro fuel
  induction fuel with
  | zero => intro offset acc; exact Or.inr (Or.inr rfl)
  | succ n ih =>
    intro offset acc
    rw [parseAllGo]
    by_cases hlt : offset < data.length
    · rw [if_pos hlt]
      rcases hp : parse data offset with e | m
      · cases e <;> first
          | exact Or.inr (Or.inl rfl)
          | exact Or.inl ⟨acc, rfl⟩
      · exact ih _ _
    · rw [if_neg hlt]
      exact Or.inl ⟨acc, rfl⟩

/-! Claim theorems. -/

/-- C1 (amended): whenever the section loop completes but left any of the
eight mandatory slots unpopulated, `Message::parse` aborts through the
`Option::unwrap` panic (modelled as the non-result error `unwrapNone`), not
through an ordinary returned error; no partial `Message` is produced. -/
theorem missing_slot_panics (data : Bytes) (offset : Nat) (slots : Slots)
    (consumed : Nat)
    (hassemble : assembleStep data offset 8 0 emptySlots = .ok (slots, consumed))
    (hmiss : slotsComplete slots = false) :
    parse data offset = .error .unwrapNone := by
  have hunwrap : unwrapSlots slots = .error .unwrapNone := by
    obtain ⟨o1, o2, o3, o4, o5, o6, o7, o8⟩ := slots
    rcases o1 with _ | s1; · rfl
    rcases o2 with _ | s2; · rfl
    rcases o3 with _ | s3; · rfl
    rcases o4 with _ | s4; · rfl
    rcases o5 with _ | s5; · rfl
    rcases o6 with _ | s6; · rfl
    rcases o7 with _ | s7; · rfl
    rcases o8 with _ | s8; · rfl
    simp [slotsComplete] at hmiss
  rw [parse, hassemble]
  exact hunwrap

/-- C1 (counterexample to the claim as stated): on `dupIdentMsg` the End
slot is unpopulated, yet `Message::parse` does not return an ordinary
`AssemblyError` result — it panics (the `unwrapNone` marker, distinct from
every ordinary `malformedSection` result). -/
theorem parse_missing_slot_not_ordinary_error :
    parse dupIdentMsg 0 = Except.error GribError.unwrapNone ∧
      ∀ s, GribError.unwrapNone ≠ GribError.malformedSection s := by
  exact ⟨rfl, fun s h => by cases h⟩

/-- C1 (witness): the amended theorem applied to the concrete duplicate-
identification buffer. -/
theorem missing_slot_panics_witness :
    parse dupIdentMsg 0 = Except.error GribError.unwrapNone :=
  missing_slot_panics dupIdentMsg 0 dupIdentSlots 51 (by rfl) (by rfl)

/-- C2: the LocalUse-free 50-byte message parses completely, but inserting a
LocalUse section makes the same message panic: the loop counts the skipped
LocalUse section against its eight expected sections, never parses the End
section, and `unwrap()`s the empty End slot. -/
theorem localuse_message_panics :
    parse wellFormedMsg 0 = Except.ok wellFormedResult ∧
      parse localUseMsg 0 = Except.error GribError.unwrapNone :=
  ⟨rfl, rfl⟩

/-- C3: `bits_from_bytes` on the byte `0x0F` yields only the four minimal
binary digits `[1, 1, 1, 1]` — not the eight MSB-first bits of the byte —
because the source formats each byte as text without leading-zero
padding. -/
theorem bits_from_bytes_drops_leading_zeros :
    bits_from_bytes [15] = [1, 1, 1, 1] ∧
      (bits_from_bytes [15]).length ≠ 8 :=
  ⟨rfl, by decide⟩

/-- C4 (counterexample to the claim as stated): `parse_all` does fail as a
whole call on the buffer `localUseMsg`, because the first message's
construction panics and the panic propagates past the `if let Ok`. -/
theorem parse_all_panic_propagates :
    parse_all localUseMsg = Except.error GribError.unwrapNone := rfl

/-- C4 (amended): `parse_all` never fails with an ordinary construction
error — the first such error ends the stream, silently dropping trailing
bytes, as on the concrete buffer of 2 complete messages followed by 3
truncated bytes, which yields exactly those 2 messages at cumulative
offsets 0 and 50; on every buffer the call either returns a message list,
propagates the missing-slot panic, or loops forever on a zero-length
message. -/
theorem parse_all_stops_at_first_error :
    parse_all twoMsgPlusGarbage = Except.ok [wellFormedResult, secondMsgResult] ∧
      ∀ data : Bytes,
        (∃ ms, parse_all data = Except.ok ms) ∨
          parse_all data = Except.error GribError.unwrapNone ∨
          parse_all data = Except.error GribError.nonTermination :=
  ⟨rfl, fun data => parseAllGo_shape data _ 0 []⟩

/-- C7: resolving (discipline 0, category 0, number 0) yields the
Temperature parameter with abbreviation TMP and unit K, and the triple
(0, 0, 255) fails with the recoverable `UnknownParameter` error. -/
theorem parameter_resolution_example :
    resolveParameter 0 0 0 = Except.ok ⟨"Temperature", "TMP", "K"⟩ ∧
      resolveParameter 0 0 255 = Except.error GribError.unknownParameter :=
  ⟨rfl, rfl⟩

/-- C8: every buffer shorter than the 16-byte minimum Indicator section
makes `Message::parse` fail with an ordinary `MalformedSection` error (in
particular it neither panics nor reads out of range: every byte access in
the embedding is bounds-checked, mirroring the checked reads of the
source). -/
theorem short_buffer_malformed (data : Bytes) (h : data.length < 16) :
    ∃ s, parse data 0 = .error (.malformedSection s) := by
  obtain ⟨s, hs⟩ := assembleStep_short data 0 7 0 emptySlots (by omega)
  exact ⟨s, by rw [parse, hs]⟩

/-- C8 (witness): the theorem applied to a concrete 3-byte buffer. -/
theorem short_buffer_malformed_witness :
    ∃ s, parse [1, 2, 3] 0 = .error (.malformedSection s) :=
  short_buffer_malformed [1, 2, 3] (by decide)

/-- C9: `metadata()` is deterministic — two calls on the same Message over
the same backing buffer return identical results (the embedding is a pure
function of the buffer and the section views, mirroring the source's
`&self` borrow with no interior mutability and no caching). -/
theorem metadata_deterministic (data1 data2 : Bytes) (m1 m2 : Message)
    (hdata : data1 = data2) (hm : m1 = m2) :
    metadata data1 m1 = metadata data2 m2 := by
  subst hdata; subst hm; rfl

/-- C9 (witness): two metadata calls on the concrete parsed message and its
buffer coincide. -/
theorem metadata_deterministic_witness :
    metadata wellFormedMsg wellFormedResult =
      metadata wellFormedMsg wellFormedResult :=
  metadata_deterministic wellFormedMsg wellFormedMsg wellFormedResult
    wellFormedResult rfl rfl

/-- C6: bitmap mapping emits exactly one entry per grid point whenever a
bitmap is present (one per presence bit, however many are set), and with no
bitmap present `map_data` is the identity and `data_index` maps every grid
index to itself. -/
theorem bitmap_one_entry_per_point (bm : BitmapSec) (compact : List ℚ)
    (i : Nat) :
    (bm.present = true → (map_data bm compact).length = bm.bits.length) ∧
    (bm.present = false →
      map_data bm compact = compact ∧ data_index bm i = some i) := by
  constructor
  · intro hp; simp [map_data, hp, expandBits_length]
  · intro hp; simp [map_data, data_index, hp]

/-- C6 (witness): both halves at concrete inputs — a 2-bit bitmap with one
set bit expands a 1-value compact sequence to 2 entries; with no bitmap the
mapping is the identity and index 3 maps to itself. -/
theorem bitmap_one_entry_per_point_witness :
    (map_data ⟨true, [1, 0]⟩ [5]).length = 2 ∧
      map_data ⟨false, []⟩ [5] = [5] ∧
      data_index ⟨false, []⟩ 3 = some 3 :=
  ⟨(bitmap_one_entry_per_point ⟨true, [1, 0]⟩ [5] 3).1 rfl,
    ((bitmap_one_entry_per_point ⟨false, []⟩ [5] 3).2 rfl).1,
    ((bitmap_one_entry_per_point ⟨false, []⟩ [5] 3).2 rfl).2⟩

/-- The first `k` bytes starting at `offset`, when they all exist, as the
enumerated `getD` reads. -/
theorem drop_take_range (data : Bytes) :
    ∀ (k offset : Nat), offset + k ≤ data.length →
      (data.drop offset).take k =
        (List.range k).map (fun t => data.getD (offset + t) 0) := by
  intro k
  induction k with
  | zero => intro offset h; simp
  | succ n ih =>
    intro offset h
    have hofs : offset < data.length := by omega
    rw [List.drop_eq_getElem_cons hofs, List.take_succ_cons,
      ih (offset + 1) (by omega), List.range_succ_eq_map, List.map_cons,
      List.map_map]
    congr 1
    · simp only [Nat.add_zero]
      rw [List.getD_eq_getElem data 0 hofs]
    · apply List.map_congr_left
      intro t ht
      simp only [Function.comp_apply]
      congr 1
      omega

/-- C10: each byte-reading helper returns `none` exactly when the slice is
shorter than `offset + width`, and otherwise the big-endian integer folded
from exactly the `width` bytes at `offset` — no read outside the slice. -/
theorem read_helpers_bounds_and_value (data : Bytes) (offset : Nat) :
    ((read_u16_from_bytes data offset = none ↔ data.length < offset + 2) ∧
      (offset + 2 ≤ data.length →
        read_u16_from_bytes data offset =
          some (((data.drop offset).take 2).foldl
            (fun acc b => acc * 256 + b) 0))) ∧
    ((read_u32_from_bytes data offset = none ↔ data.length < offset + 4) ∧
      (offset + 4 ≤ data.length →
        read_u32_from_bytes data offset =
          some (((data.drop offset).take 4).foldl
            (fun acc b => acc * 256 + b) 0))) ∧
    ((read_u64_from_bytes data offset = none ↔ data.length < offset + 8) ∧
      (offset + 8 ≤ data.length →
        read_u64_from_bytes data offset =
          some (((data.drop offset).take 8).foldl
            (fun acc b => acc * 256 + b) 0))) := by
  refine ⟨⟨?_, ?_⟩, ⟨?_, ?_⟩, ⟨?_, ?_⟩⟩
  · by_cases hc : data.length < offset + 2 <;> simp [read_u16_from_bytes, hc]
  · intro h
    rw [read_u16_from_bytes, if_neg (by omega), drop_take_range data 2 offset h,
      (by rfl : List.range 2 = [0, 1])]
    simp only [List.map_cons, List.map_nil, List.foldl_cons, List.foldl_nil,
      Nat.add_zero]
    exact congrArg some (by ring)
  · by_cases hc : data.length < offset + 4 <;> simp [read_u32_from_bytes, hc]
  · intro h
    rw [read_u32_from_bytes, if_neg (by omega), drop_take_range data 4 offset h,
      (by rfl : List.range 4 = [0, 1, 2, 3])]
    simp only [List.map_cons, List.map_nil, List.foldl_cons, List.foldl_nil,
      Nat.add_zero]
    exact congrArg some (by ring)
  · by_cases hc : data.length < offset + 8 <;> simp [read_u64_from_bytes, hc]
  · intro h
    rw [read_u64_from_bytes, if_neg (by omega), drop_take_range data 8 offset h,
      (by rfl : List.range 8 = [0, 1, 2, 3, 4, 5, 6, 7])]
    simp only [List.map_cons, List.map_nil, List.foldl_cons, List.foldl_nil,
      Nat.add_zero]
    exact congrArg some (by ring)

/-- C10 (witness): the value clauses at a concrete slice and offset. -/
theorem read_helpers_bounds_and_value_witness :
    read_u16_from_bytes [1, 2, 3, 4, 5, 6, 7, 8, 9, 10] 1 =
        some (((([1, 2, 3, 4, 5, 6, 7, 8, 9, 10].drop 1).take 2).foldl
          (fun acc b => acc * 256 + b) 0)) ∧
      read_u32_from_bytes [1, 2, 3, 4, 5, 6, 7, 8, 9, 10] 1 =
        some (((([1, 2, 3, 4, 5, 6, 7, 8, 9, 10].drop 1).take 4).foldl
          (fun acc b => acc * 256 + b) 0)) ∧
      read_u64_from_bytes [1, 2, 3, 4, 5, 6, 7, 8, 9, 10] 1 =
        some (((([1, 2, 3, 4, 5, 6, 7, 8, 9, 10].drop 1).take 8).foldl
          (fun acc b => acc * 256 + b) 0)) :=
  ⟨(read_helpers_bounds_and_value [1, 2, 3, 4, 5, 6, 7, 8, 9, 10] 1).1.2
      (by decide),
    (read_helpers_bounds_and_value [1, 2, 3, 4, 5, 6, 7, 8, 9, 10] 1).2.1.2
      (by decide),
    (read_helpers_bounds_and_value [1, 2, 3, 4, 5, 6, 7, 8, 9, 10] 1).2.2.2
      (by decide)⟩

/-- A point lookup evaluates through its three resolved stages: a grid index
from the coordinate, a compact index from the bitmap, and the one-element
range decode. -/
theorem data_at_location_ok (v : DecodeView) (loc : ℚ × ℚ) (li di : Nat)
    (hL : index_for_location v.grid loc.1 loc.2 = Except.ok li)
    (hD : data_index v.bitmap li = some di) :
    data_at_location v loc =
      Except.ok ((unpack_range v.rep v.dataBits di (di + 1)).getD 0 0) := by
  show (match index_for_location v.grid loc.1 loc.2 with
      | .error e => Except.error e
      | .ok k =>
        match data_index v.bitmap k with
        | none => Except.error (GribError.noDataAtIndex k)
        | some n =>
          Except.ok ((unpack_range v.rep v.dataBits n (n + 1)).getD 0 0)) =
    Except.ok ((unpack_range v.rep v.dataBits di (di + 1)).getD 0 0)
  rw [hL]
  show (match data_index v.bitmap li with
      | none => Except.error (GribError.noDataAtIndex li)
      | some n =>
        Except.ok ((unpack_range v.rep v.dataBits n (n + 1)).getD 0 0)) =
    Except.ok ((unpack_range v.rep v.dataBits di (di + 1)).getD 0 0)
  rw [hD]

/-- C5: on a no-bitmap message whose declared point count matches the grid
shape, the full decode and the location enumeration both have exactly
`pointCount` entries, the coordinate lookup inverts the enumeration
(`index_for_location` at `locations()[i]` recovers `i`), and the
single-point lookup at `locations()[i]` returns exactly the `i`-th element
of the full decode (values are exact rationals, so equality is exact, a
fortiori within tolerance). -/
theorem point_lookup_matches_full_decode (v : DecodeView)
    (hbm : v.bitmap.present = false)
    (hcount : v.pointCount = v.grid.latCount * v.grid.lonCount)
    (hlat : v.grid.latStep ≠ 0) (hlon : v.grid.lonStep ≠ 0)
    (i : Nat) (hi : i < v.pointCount) :
    (dataAll v).length = v.pointCount ∧
    (dataLocations v).length = v.pointCount ∧
    index_for_location v.grid ((dataLocations v).getD i (0, 0)).1
      ((dataLocations v).getD i (0, 0)).2 = Except.ok i ∧
    data_at_location v ((dataLocations v).getD i (0, 0)) =
      Except.ok ((dataAll v).getD i 0) := by
  have hlonNe : v.grid.lonCount ≠ 0 := fun h0 => by
    rw [h0, Nat.mul_zero] at hcount; omega
  have hlonPos : 0 < v.grid.lonCount := Nat.pos_of_ne_zero hlonNe
  have hiLT : i < v.grid.latCount * v.grid.lonCount := hcount ▸ hi
  have hdiv : i / v.grid.lonCount < v.grid.latCount :=
    (Nat.div_lt_iff_lt_mul hlonPos).mpr hiLT
  have hmod : i % v.grid.lonCount < v.grid.lonCount := Nat.mod_lt _ hlonPos
  have hlocLen : (dataLocations v).length = v.pointCount := by
    simp [dataLocations, locations, hcount]
  have hloc : (dataLocations v).getD i (0, 0) =
      (v.grid.startLat + (↑(i / v.grid.lonCount) : ℚ) * v.grid.latStep,
       v.grid.startLon + (↑(i % v.grid.lonCount) : ℚ) * v.grid.lonStep) := by
    rw [List.getD_eq_getElem _ _ (by rw [hlocLen]; exact hi)]
    simp [dataLocations, locations]
  have hidx : index_for_location v.grid
      (v.grid.startLat + (↑(i / v.grid.lonCount) : ℚ) * v.grid.latStep)
      (v.grid.startLon + (↑(i % v.grid.lonCount) : ℚ) * v.grid.lonStep) =
      Except.ok i := by
    rw [index_for_location, add_sub_cancel_left, add_sub_cancel_left,
      mul_div_cancel_right₀ _ hlat, mul_div_cancel_right₀ _ hlon,
      round_natCast, round_natCast,
      if_pos ⟨Int.natCast_nonneg _, Nat.cast_lt.mpr hdiv,
        Int.natCast_nonneg _, Nat.cast_lt.mpr hmod⟩,
      Int.toNat_natCast, Int.toNat_natCast]
    exact congrArg Except.ok
      (by rw [Nat.mul_comm]; exact Nat.div_add_mod i v.grid.lonCount)
  have hdataLen : (dataAll v).length = v.pointCount := by
    simp [dataAll, map_data, hbm, unpack_all]
  have hdataGet : (dataAll v).getD i 0 = unpackValue v.rep v.dataBits i := by
    rw [List.getD_eq_getElem _ _ (by rw [hdataLen]; exact hi)]
    simp [dataAll, map_data, hbm, unpack_all]
  have hloc1 : ((dataLocations v).getD i (0, 0)).1 =
      v.grid.startLat + (↑(i / v.grid.lonCount) : ℚ) * v.grid.latStep := by
    rw [hloc]
  have hloc2 : ((dataLocations v).getD i (0, 0)).2 =
      v.grid.startLon + (↑(i % v.grid.lonCount) : ℚ) * v.grid.lonStep := by
    rw [hloc]
  have h2 : data_index v.bitmap i = some i := by
    simp [data_index, hbm]
  have h3 : unpack_range v.rep v.dataBits i (i + 1) =
      [unpackValue v.rep v.dataBits i] := by
    rw [unpack_range, (by omega : i + 1 - i = 1)]
    rfl
  refine ⟨hdataLen, hlocLen, ?_, ?_⟩
  · rw [hloc1, hloc2, hidx]
  · rw [data_at_location_ok v _ i i (by rw [hloc1, hloc2, hidx]) h2, h3,
      hdataGet, List.getD_cons_zero]

/-- C5 (witness): the theorem at a concrete one-point no-bitmap view
(reference value 0, neutral scales, 8-bit values, bit stream
`0,0,0,0,1,1,1,1`). -/
theorem point_lookup_matches_full_decode_witness :
    (dataAll onePointView).length = onePointView.pointCount ∧
    (dataLocations onePointView).length = onePointView.pointCount ∧
    index_for_location onePointView.grid
      ((dataLocations onePointView).getD 0 (0, 0)).1
      ((dataLocations onePointView).getD 0 (0, 0)).2 = Except.ok 0 ∧
    data_at_location onePointView ((dataLocations onePointView).getD 0 (0, 0)) =
      Except.ok ((dataAll onePointView).getD 0 0) :=
  point_lookup_matches_full_decode onePointView rfl rfl (by decide) (by decide)
    0 (by decide)

end Grib
